import Mathlib

/-!
# PredictionForm: client state machine of the car price estimator

A shallow embedding of `frontend/src/components/PredictionForm.jsx`: the
component state (the seven `useState` cells), the option-catalog effect, the
`onChange` and `onSubmit` handlers, the continuations of the two HTTP calls,
and the rendered form, which decides the events the handlers receive (the
options of the selects, the number inputs, constraint validation and the
disabled submit button). Theorems about them follow.

JavaScript values are embedded by their type in the component: the text
fields of the vehicle record are strings, the numeric fields are numbers
(values of `Number(...)`), the error cell is `null` or a string. The string to
number coercion `Number` is the engine's and is a parameter of `onChange`.
-/

namespace PredictionForm

/-! ## JavaScript numbers and the `||` idiom -/

/-- A JavaScript number: NaN, the two infinities, or a finite value (every
finite double is a rational). Only comparisons are performed on them. -/
inductive JSNum where
  | nan
  | negInf
  | fin (q : ℚ)
  | posInf
  deriving DecidableEq

namespace JSNum

/-- The JavaScript comparison `a < b`: false as soon as an operand is NaN. -/
def lt : JSNum → JSNum → Bool
  | nan, _ => false
  | _, nan => false
  | negInf, negInf => false
  | negInf, _ => true
  | _, negInf => false
  | fin a, fin b => decide (a < b)
  | fin _, posInf => true
  | posInf, _ => false

/-- The JavaScript comparison `a <= b`: false as soon as an operand is NaN. -/
def le : JSNum → JSNum → Bool
  | nan, _ => false
  | _, nan => false
  | negInf, _ => true
  | _, posInf => true
  | fin a, fin b => decide (a ≤ b)
  | fin _, negInf => false
  | posInf, _ => false

/-- The number an integer literal or `getFullYear()` denotes. -/
def ofInt (i : Int) : JSNum := fin (i : ℚ)

end JSNum

/-- The value of `a || b` for two optional strings: `a` when it is truthy (present and
not the empty string), `b` otherwise. -/
def jsOr (a b : Option String) : Option String :=
  match a with
  | some s => if s = "" then b else some s
  | none => b

/-- The value of `a || 'literal'`: `a` when it is truthy, the literal otherwise. -/
def orLit (a : Option String) (d : String) : String :=
  match a with
  | some s => if s = "" then d else s
  | none => d

/-! ## Data model -/

/-- The vehicle record (`defaultVehicle`, lines 5-13). `others` holds the
properties a computed key `[name]` adds under a name that is none of the seven. -/
structure Vehicle where
  marque : String
  modele : String
  annee : JSNum
  kilometrage : JSNum
  energie : String
  boite_vitesses : String
  puissance_fiscale : JSNum
  others : List (String × String) := []
  deriving DecidableEq

/-- The record `defaultVehicle`; `loadYear` is `new Date().getFullYear()` when the
module is loaded. -/
def defaultVehicle (loadYear : Int) : Vehicle :=
  { marque := ""
    modele := ""
    annee := JSNum.ofInt loadYear
    kilometrage := JSNum.ofInt 50000
    energie := "Diesel"
    boite_vitesses := "Manuelle"
    puissance_fiscale := JSNum.ofInt 7 }

/-- A property value of the vehicle record. -/
inductive JSVal where
  | str (s : String)
  | num (n : JSNum)
  deriving DecidableEq

/-- Lookup in a property list. -/
def lookupProp : List (String × String) → String → Option String
  | [], _ => none
  | (k, x) :: rest, name => if k = name then some x else lookupProp rest name

/-- Assignment in a property list: an existing key keeps its place and gets
the new value, a new key is appended. -/
def setProp : List (String × String) → String → String → List (String × String)
  | [], name, x => [(name, x)]
  | (k, y) :: rest, name, x =>
    if k = name then (k, x) :: rest else (k, y) :: setProp rest name x

/-- The property read `v[name]`; `none` is `undefined`. -/
def Vehicle.get (v : Vehicle) (name : String) : Option JSVal :=
  if name = "marque" then some (.str v.marque)
  else if name = "modele" then some (.str v.modele)
  else if name = "annee" then some (.num v.annee)
  else if name = "kilometrage" then some (.num v.kilometrage)
  else if name = "energie" then some (.str v.energie)
  else if name = "boite_vitesses" then some (.str v.boite_vitesses)
  else if name = "puissance_fiscale" then some (.num v.puissance_fiscale)
  else (lookupProp v.others name).map .str

/-- The body `res.data` of an HTTP response: `null`/`undefined`, a primitive
(string, number, boolean), or an object read as `α`. -/
inductive Body (α : Type) where
  | nullish
  | scalar
  | object (o : α)
  deriving DecidableEq

/-- The object of `GET /api/brands`; an absent or `null` property is `none`. -/
structure BrandsData where
  success : Option Bool
  marques : Option (List String)
  energies : Option (List String)
  boites : Option (List String)
  deriving DecidableEq

/-- The object of `POST /api/predict`; an absent or `null` property is `none`. -/
structure PredictData where
  success : Option Bool
  error : Option String := none
  prix_predit : Option JSNum := none
  prix_min : Option JSNum := none
  prix_max : Option JSNum := none
  marque : Option String := none
  modele : Option String := none
  annee : Option JSNum := none
  kilometrage : Option JSNum := none
  age : Option JSNum := none
  deriving DecidableEq

/-- The property `err.response.data` of a caught error, read for its `error`. -/
structure ErrData where
  error : Option String
  deriving DecidableEq

/-- The property `err.response` of a caught error. -/
structure ErrResponse where
  data : Option ErrData
  deriving DecidableEq

/-- The value caught by `catch (err)`. -/
structure JsError where
  response : Option ErrResponse
  message : Option String
  deriving DecidableEq

/-- The optional chain `err.response?.data?.error`. -/
def JsError.responseError (err : JsError) : Option String :=
  (err.response.bind (·.data)).bind (·.error)

/-- The seven state cells of the component (lines 16-22). -/
structure State where
  brands : List String
  energies : List String
  boites : List String
  vehicle : Vehicle
  loading : Bool
  result : Option PredictData
  error : Option String
  deriving DecidableEq

/-- The initial value of `energies` (line 17). -/
def defaultEnergies : List String := ["Diesel", "Essence", "Hybride", "Electrique", "GPL"]

/-- The initial value of `boites` (line 18). -/
def defaultBoites : List String := ["Manuelle", "Automatique"]

/-- The state of the first render. -/
def State.init (loadYear : Int) : State :=
  { brands := []
    energies := defaultEnergies
    boites := defaultBoites
    vehicle := defaultVehicle loadYear
    loading := false
    result := none
    error := none }

/-! ## Messages -/

/-- The message of the `else` branch of the option-catalog effect (line 36). -/
def msgOptionsFailed : String := "Impossible de récupérer la liste des marques."

/-- The message of the `catch` of the option-catalog effect (line 41). -/
def msgOptionsNetwork : String := "Erreur réseau lors de récupération des marques."

/-- The message of the brand check (line 58): `MissingBrand`. -/
def msgMissingBrand : String := "Veuillez sélectionner une marque."

/-- The message of the year check (line 62): `InvalidYear`. -/
def msgInvalidYear : String := "Année invalide."

/-- The message of the mileage check (line 66): `InvalidMileage`. -/
def msgInvalidMileage : String := "Kilométrage invalide."

/-- The fallback of an unsuccessful prediction payload (line 76). -/
def msgPredictFailed : String := "Erreur lors de la prédiction."

/-- The last fallback of the `catch` block (line 80). -/
def msgNetwork : String := "Erreur réseau"

/-! ## The option-catalog effect (lines 24-44) -/

/-- The `.then` callback of `axios.get('/api/brands')`. `mounted` is the guard
flag; `energies` and `boites` in the callback are those of the first render,
the built-in lists. -/
def onOptionsResolved (mounted : Bool) (s : State) (data : Body BrandsData) : State :=
  if mounted = false then s
  else
    match data with
    | .object d =>
      if d.success = some true then
        { s with
          brands := d.marques.getD []
          energies := d.energies.getD defaultEnergies
          boites := d.boites.getD defaultBoites
          vehicle :=
            { s.vehicle with
              marque := orLit (d.marques.bind List.head?) s.vehicle.marque } }
      else { s with error := some msgOptionsFailed }
    | _ => { s with error := some msgOptionsFailed }

/-- The `.catch` callback of `axios.get('/api/brands')`. -/
def onOptionsRejected (s : State) : State :=
  { s with error := some msgOptionsNetwork }

/-! ## Field edits (lines 46-49) -/

/-- The record `{...v, [name]: x}` for the value `x` that `onChange` computes:
`Number(value)` under the three numeric names, `value` under any other. -/
def updateField (Number : String → JSNum) (v : Vehicle) (name value : String) : Vehicle :=
  if name = "kilometrage" then { v with kilometrage := Number value }
  else if name = "annee" then { v with annee := Number value }
  else if name = "puissance_fiscale" then { v with puissance_fiscale := Number value }
  else if name = "marque" then { v with marque := value }
  else if name = "modele" then { v with modele := value }
  else if name = "energie" then { v with energie := value }
  else if name = "boite_vitesses" then { v with boite_vitesses := value }
  else { v with others := setProp v.others name value }

/-- The handler `onChange`: `setVehicle(v => ({...v, [name]: ...}))`. -/
def onChange (Number : String → JSNum) (s : State) (name value : String) : State :=
  { s with vehicle := updateField Number s.vehicle name value }

/-! ## Submission (lines 51-85) -/

/-- The handler `onSubmit` up to its `await`: the state it leaves and the
bodies of the `POST /api/predict` requests it issues. `currentYear` is
`new Date().getFullYear()` at the time of the call. -/
def onSubmit (currentYear : Int) (s : State) : State × List Vehicle :=
  let cleared : State := { s with error := none, result := none }
  if s.vehicle.marque = "" then
    ({ cleared with error := some msgMissingBrand }, [])
  else if s.vehicle.annee.lt (JSNum.ofInt 1900) = true
      ∨ (JSNum.ofInt currentYear).lt s.vehicle.annee = true then
    ({ cleared with error := some msgInvalidYear }, [])
  else if s.vehicle.kilometrage.lt (JSNum.ofInt 0) = true then
    ({ cleared with error := some msgInvalidMileage }, [])
  else
    ({ cleared with loading := true }, [s.vehicle])

/-- The `catch (err)` block (lines 78-81). -/
def catchBlock (s : State) (err : JsError) : State :=
  { s with error := some (orLit (jsOr err.responseError err.message) msgNetwork) }

/-- The `finally` block (lines 82-84). -/
def finallyBlock (s : State) : State :=
  { s with loading := false }

/-- The rest of `onSubmit` when the request is rejected, with the requests it
issues. -/
def onPredictRejected (s : State) (err : JsError) : State × List Vehicle :=
  (finallyBlock (catchBlock s err), [])

/-- The rest of `onSubmit` when the request resolves with body `data`, with the
requests it issues. On a `null` body the read `res.data.error` throws a
`TypeError`, whose message `typeErrorMessage` is the engine's, and the `catch`
block runs. -/
def onPredictResolved (s : State) (data : Body PredictData) (typeErrorMessage : String) :
    State × List Vehicle :=
  match data with
  | .object p =>
    if p.success = some true then (finallyBlock { s with result := some p }, [])
    else (finallyBlock { s with error := some (orLit p.error msgPredictFailed) }, [])
  | .scalar => (finallyBlock { s with error := some msgPredictFailed }, [])
  | .nullish =>
    (finallyBlock (catchBlock s { response := none, message := some typeErrorMessage }), [])

/-! ## The rendered form (lines 87-155) -/

/-- Whether a number is finite. -/
def JSNum.isFinite : JSNum → Bool
  | .fin _ => true
  | _ => false

/-- Whether a control of the form can deliver the change `(name, value)`. The
brand select offers the empty option and the members of `brands` (lines
97-100). The model input is free text (line 105). A `type="number"` input holds
the empty string or a valid floating-point number, which `Number` reads as a
finite number (lines 112, 117, 140). The two other selects offer the members of
their lists (lines 124-126 and 131-133). No control bears another name. -/
def canChange (Number : String → JSNum) (s : State) (name value : String) : Bool :=
  if name = "marque" then decide (value = "" ∨ value ∈ s.brands)
  else if name = "modele" then true
  else if name = "annee" ∨ name = "kilometrage" ∨ name = "puissance_fiscale" then
    (Number value).isFinite
  else if name = "energie" then decide (value ∈ s.energies)
  else if name = "boite_vitesses" then decide (value ∈ s.boites)
  else false

/-- Whether a number input with attribute `min` suffers from an underflow. A
cell that is not a finite number renders as an empty field, which has no range
to check. -/
def underflow (min : Int) : JSNum → Bool
  | .fin q => decide (q < (min : ℚ))
  | _ => false

/-- Whether a number input with attribute `max` suffers from an overflow. -/
def overflow (max : Int) : JSNum → Bool
  | .fin q => decide ((max : ℚ) < q)
  | _ => false

/-- Constraint validation of the form, which has no `noValidate` (line 92): the
brand select is `required` (line 97), the year has `min="1900"` and `max` the
current year (line 112), the mileage has `min="0"` (line 117) and the fiscal
power has `min="1"` (line 140). The year of the last render is not after the
year of the submit, so taking the latter for `max` only admits more; the
`step` constraint of the number inputs is left out, which only admits more. -/
def formValid (maxYear : Int) (v : Vehicle) : Bool :=
  decide (v.marque ≠ "") && !underflow 1900 v.annee && !overflow maxYear v.annee &&
    !underflow 0 v.kilometrage && !underflow 1 v.puissance_fiscale

/-- A click on the submit button (line 144), or the Enter key in a field, which
clicks it. Nothing happens while the button is disabled (`loading`); otherwise
the browser validates the form and fires the submit event, that is calls
`onSubmit`, only when the form is valid. -/
def clickSubmit (currentYear : Int) (s : State) : State × List Vehicle :=
  if s.loading = false ∧ formValid currentYear s.vehicle = true then onSubmit currentYear s
  else (s, [])

/-! ## The component as a transition system -/

/-- The component together with what is still awaited: the option-catalog
fetch, and the number of prediction requests whose outcome has not arrived. -/
structure Sys where
  ui : State
  optionsPending : Bool
  inflight : Nat
  deriving DecidableEq

/-- The mounted component at its first render: the option-catalog fetch is
under way, no prediction request is. -/
def Sys.init (loadYear : Int) : Sys :=
  { ui := State.init loadYear, optionsPending := true, inflight := 0 }

/-- The events of the mounted component. -/
inductive Event where
  | optionsResolved (data : Body BrandsData)
  | optionsRejected
  | change (name value : String)
  | click (currentYear : Int)
  | predictResolved (data : Body PredictData) (typeErrorMessage : String)
  | predictRejected (err : JsError)
  deriving DecidableEq

/-- One event of the rendered form; `none` when the event cannot occur: an
outcome nobody awaits, or a change no control can deliver. -/
def step (Number : String → JSNum) (σ : Sys) : Event → Option Sys
  | .optionsResolved data =>
    if σ.optionsPending = true then
      some { σ with ui := onOptionsResolved true σ.ui data, optionsPending := false }
    else none
  | .optionsRejected =>
    if σ.optionsPending = true then
      some { σ with ui := onOptionsRejected σ.ui, optionsPending := false }
    else none
  | .change name value =>
    if canChange Number σ.ui name value = true then
      some { σ with ui := onChange Number σ.ui name value }
    else none
  | .click currentYear =>
    some { σ with
      ui := (clickSubmit currentYear σ.ui).1
      inflight := σ.inflight + (clickSubmit currentYear σ.ui).2.length }
  | .predictResolved data typeErrorMessage =>
    if 0 < σ.inflight then
      some { σ with
        ui := (onPredictResolved σ.ui data typeErrorMessage).1
        inflight := σ.inflight - 1 + (onPredictResolved σ.ui data typeErrorMessage).2.length }
    else none
  | .predictRejected err =>
    if 0 < σ.inflight then
      some { σ with
        ui := (onPredictRejected σ.ui err).1
        inflight := σ.inflight - 1 + (onPredictRejected σ.ui err).2.length }
    else none

/-- A sequence of events, in the order they occur. -/
def run (Number : String → JSNum) : Sys → List Event → Option Sys
  | σ, [] => some σ
  | σ, e :: es => (step Number σ e).bind (fun σ' => run Number σ' es)

/-- What holds in every state the form reaches. -/
structure FormInv (σ : Sys) : Prop where
  atMostOne : σ.inflight ≤ 1
  loadingIff : σ.ui.loading = true ↔ σ.inflight = 1
  cleared : σ.inflight = 1 → σ.ui.result = none ∧ σ.ui.error = none
  exclusive : σ.ui.result = none ∨ σ.ui.error = none
  awaiting : σ.optionsPending = true →
    σ.inflight = 0 ∧ σ.ui.result = none ∧ σ.ui.vehicle.marque = "" ∧ σ.ui.brands = []
  finitePower : σ.ui.vehicle.puissance_fiscale.isFinite = true

/-- A reading of `Number` for concrete inputs: the empty string reads 0 and a
string of decimal digits reads the integer it writes, as in the engine (up to
15 digits); any other string is read NaN here. -/
def decimalNumber (s : String) : JSNum :=
  if s.data.all Char.isDigit = true then
    JSNum.fin ((s.data.foldl (fun n c => 10 * n + (c.toNat - 48)) 0 : Nat) : ℚ)
  else JSNum.nan

/-! ## Concrete inputs -/

/-- The query of the specification's example, in a component whose catalog is
loaded. -/
def exampleState : State :=
  { brands := ["BMW", "Renault"]
    energies := ["Diesel"]
    boites := ["Manuelle"]
    vehicle :=
      { marque := "BMW"
        modele := "Série 3"
        annee := JSNum.ofInt 2020
        kilometrage := JSNum.ofInt 50000
        energie := "Diesel"
        boite_vitesses := "Manuelle"
        puissance_fiscale := JSNum.ofInt 7 }
    loading := false
    result := none
    error := none }

/-- The successful payload of the specification's example. -/
def examplePayload : PredictData :=
  { success := some true
    prix_predit := some (JSNum.ofInt 45000)
    prix_min := some (JSNum.ofInt 42000)
    prix_max := some (JSNum.ofInt 48000)
    marque := some "BMW"
    modele := some "Série 3"
    annee := some (JSNum.ofInt 2020)
    kilometrage := some (JSNum.ofInt 50000)
    age := some (JSNum.ofInt 5) }

/-- A transport failure with no response: what axios raises when the server
cannot be reached. -/
def networkError : JsError :=
  { response := none, message := some "Network Error" }

/-- The catalog of the specification's example. -/
def exampleCatalog : BrandsData :=
  { success := some true
    marques := some ["BMW", "Renault"]
    energies := some ["Diesel"]
    boites := some ["Manuelle"] }

/-- A session of the form: the catalog arrives, two fields are edited, the
query is sent and answered, the mileage is edited, the query is sent again and
the request fails. -/
def formSession : List Event :=
  [ .optionsResolved (.object exampleCatalog),
    .change "modele" "Série 3",
    .change "annee" "2020",
    .click 2025,
    .predictResolved (.object examplePayload) "",
    .change "kilometrage" "42000",
    .click 2025,
    .predictRejected networkError ]

/-- Two clicks in a row, then the answer to the one request. -/
def doubleClick : List Event :=
  [ .optionsResolved (.object exampleCatalog),
    .click 2025,
    .click 2025,
    .predictResolved (.object examplePayload) "" ]

/-- Edits made while the catalog is still awaited. -/
def editsBeforeCatalog : List Event :=
  [ .change "modele" "Série 3",
    .change "kilometrage" "42000" ]

/-- The catalog arrives and the fiscal power is set to 0. -/
def zeroPowerEdit : List Event :=
  [ .optionsResolved (.object exampleCatalog),
    .change "puissance_fiscale" "0" ]

/-- The catalog arrives and the fiscal power is set to 3. -/
def threePowerEdit : List Event :=
  [ .optionsResolved (.object exampleCatalog),
    .change "puissance_fiscale" "3" ]

/-- The state in which a session started in 2025 ends (the initial state when
its events cannot occur in that order). -/
def endOf (es : List Event) : Sys :=
  (run decimalNumber (Sys.init 2025) es).getD (Sys.init 2025)

/-! ## Lemmas on property lists -/

theorem lookupProp_setProp_self (l : List (String × String)) (name x : String) :
    lookupProp (setProp l name x) name = some x := by
  induction l with
  | nil => simp [setProp, lookupProp]
  | cons p rest ih =>
    obtain ⟨k, y⟩ := p
    by_cases h : k = name
    · simp [setProp, lookupProp, h]
    · simp [setProp, lookupProp, h, ih]

theorem lookupProp_setProp_ne (l : List (String × String)) (name x k : String)
    (h : k ≠ name) : lookupProp (setProp l name x) k = lookupProp l k := by
  induction l with
  | nil =>
    have h2 : name ≠ k := fun e => h e.symm
    simp [setProp, lookupProp, h2]
  | cons p rest ih =>
    obtain ⟨j, y⟩ := p
    by_cases hj : j = name
    · subst hj
      have h2 : j ≠ k := fun e => h e.symm
      simp [setProp, lookupProp, h2]
    · by_cases hk : j = k
      · simp [setProp, lookupProp, hj, hk, h]
      · simp [setProp, lookupProp, hj, hk, ih]

/-! ## Validation and submission -/

/-- C1: for every state and current year the validation of `onSubmit` reports
the first failure only, in the order brand, year, mileage: the brand message
when the brand is empty whatever the other fields are (never the year or the
mileage message), otherwise the year message when `annee < 1900` or
`annee > currentYear`, otherwise the mileage message when `kilometrage < 0`,
and otherwise no message, the query being accepted and sent. -/
theorem onSubmit_validation_order (currentYear : Int) (s : State) :
    (s.vehicle.marque = "" →
      (onSubmit currentYear s).1.error = some msgMissingBrand ∧
      (onSubmit currentYear s).1.error ≠ some msgInvalidYear ∧
      (onSubmit currentYear s).1.error ≠ some msgInvalidMileage) ∧
    (s.vehicle.marque ≠ "" →
      (s.vehicle.annee.lt (JSNum.ofInt 1900) = true ∨
        (JSNum.ofInt currentYear).lt s.vehicle.annee = true) →
      (onSubmit currentYear s).1.error = some msgInvalidYear) ∧
    (s.vehicle.marque ≠ "" →
      ¬ (s.vehicle.annee.lt (JSNum.ofInt 1900) = true ∨
        (JSNum.ofInt currentYear).lt s.vehicle.annee = true) →
      s.vehicle.kilometrage.lt (JSNum.ofInt 0) = true →
      (onSubmit currentYear s).1.error = some msgInvalidMileage) ∧
    (s.vehicle.marque ≠ "" →
      ¬ (s.vehicle.annee.lt (JSNum.ofInt 1900) = true ∨
        (JSNum.ofInt currentYear).lt s.vehicle.annee = true) →
      ¬ s.vehicle.kilometrage.lt (JSNum.ofInt 0) = true →
      (onSubmit currentYear s).1.error = none ∧
      (onSubmit currentYear s).2 = [s.vehicle]) := by
  refine ⟨?_, ?_, ?_, ?_⟩
  · intro h
    have e : (onSubmit currentYear s).1.error = some msgMissingBrand := by
      simp [onSubmit, h]
    refine ⟨e, ?_, ?_⟩
    · rw [e]; decide
    · rw [e]; decide
  · intro h hy
    simp only [onSubmit, if_neg h, if_pos hy]
  · intro h hy hk
    simp only [onSubmit, if_neg h, if_neg hy, if_pos hk]
  · intro h hy hk
    simp only [onSubmit, if_neg h, if_neg hy, if_neg hk, and_self]

/-- On integers `<` is the order of the integers. -/
theorem JSNum.lt_ofInt (a b : Int) : (JSNum.ofInt a).lt (JSNum.ofInt b) = decide (a < b) := by
  simp [JSNum.ofInt, JSNum.lt]

/-- On integers `<=` is the order of the integers. -/
theorem JSNum.le_ofInt (a b : Int) : (JSNum.ofInt a).le (JSNum.ofInt b) = decide (a ≤ b) := by
  simp [JSNum.ofInt, JSNum.le]

/-- A comparison `a <= b` that holds excludes `b < a`. -/
theorem JSNum.lt_eq_false_of_le (a b : JSNum) (h : a.le b = true) : b.lt a = false := by
  cases a <;> cases b <;> simp_all [JSNum.le, JSNum.lt]

/-- C2: `onSubmit` issues exactly one request, whose body is the vehicle record
as it stands, when the query passes validation (brand not empty,
`1900 <= annee <= currentYear`, `kilometrage >= 0`); it issues none when
validation fails, that is when it reports a message, which is when the brand
is empty, `annee < 1900`, `annee > currentYear` or `kilometrage < 0`; it never
issues more than one; and neither outcome of the request issues another. -/
theorem onSubmit_one_request_or_none (currentYear : Int) (s : State) :
    (s.vehicle.marque ≠ "" →
      (JSNum.ofInt 1900).le s.vehicle.annee = true →
      s.vehicle.annee.le (JSNum.ofInt currentYear) = true →
      (JSNum.ofInt 0).le s.vehicle.kilometrage = true →
      (onSubmit currentYear s).2 = [s.vehicle]) ∧
    ((onSubmit currentYear s).1.error ≠ none → (onSubmit currentYear s).2 = []) ∧
    ((s.vehicle.marque = "" ∨ s.vehicle.annee.lt (JSNum.ofInt 1900) = true ∨
        (JSNum.ofInt currentYear).lt s.vehicle.annee = true ∨
        s.vehicle.kilometrage.lt (JSNum.ofInt 0) = true) →
      (onSubmit currentYear s).1.error ≠ none ∧ (onSubmit currentYear s).2 = []) ∧
    ((onSubmit currentYear s).2 = [s.vehicle] ∨ (onSubmit currentYear s).2 = []) ∧
    (∀ data typeErrorMessage, (onPredictResolved s data typeErrorMessage).2 = []) ∧
    (∀ err, (onPredictRejected s err).2 = []) := by
  refine ⟨?_, ?_, ?_, ?_, ?_, ?_⟩
  · intro h h1 h2 h3
    have e1 := JSNum.lt_eq_false_of_le _ _ h1
    have e2 := JSNum.lt_eq_false_of_le _ _ h2
    have e3 := JSNum.lt_eq_false_of_le _ _ h3
    simp [onSubmit, h, e1, e2, e3]
  · intro h
    unfold onSubmit at h ⊢
    split_ifs at h ⊢ <;> simp_all
  · intro h
    unfold onSubmit
    split_ifs <;> simp_all
  · unfold onSubmit
    split_ifs <;> simp
  · intro data t
    unfold onPredictResolved
    cases data <;> simp
    split_ifs <;> rfl
  · intro err
    rfl

/-! ## Field edits -/

/-- The read under the edited name is the value `onChange` computes. -/
theorem get_updateField_self (Number : String → JSNum) (v : Vehicle) (name value : String) :
    (updateField Number v name value).get name =
      some (if name = "kilometrage" ∨ name = "annee" ∨ name = "puissance_fiscale"
        then JSVal.num (Number value) else JSVal.str value) := by
  unfold updateField
  split_ifs with h1 h2 h3 h4 h5 h6 h7 <;> first
    | (subst_vars; rfl)
    | (simp_all [Vehicle.get, lookupProp_setProp_self])

/-- The read under any other name is what it was. -/
theorem get_updateField_ne (Number : String → JSNum) (v : Vehicle)
    (name value k : String) (hk : k ≠ name) :
    (updateField Number v name value).get k = v.get k := by
  unfold updateField
  split_ifs with h1 h2 h3 h4 h5 h6 h7
  · subst h1; simp [Vehicle.get, hk]
  · subst h2; simp [Vehicle.get, hk]
  · subst h3; simp [Vehicle.get, hk]
  · subst h4; simp [Vehicle.get, hk]
  · subst h5; simp [Vehicle.get, hk]
  · subst h6; simp [Vehicle.get, hk]
  · subst h7; simp [Vehicle.get, hk]
  · simp only [Vehicle.get, lookupProp_setProp_ne _ _ _ _ hk]

/-- C10: `onChange` sets the named property and no other. The property read
under `name` afterwards is `Number(value)` when `name` is `kilometrage`, `annee`
or `puissance_fiscale` and the string `value` itself under every other name;
the read under every other name is what it was; the other state cells are
untouched. -/
theorem onChange_sets_named_field (Number : String → JSNum) (s : State)
    (name value : String) :
    (onChange Number s name value).vehicle.get name =
      some (if name = "kilometrage" ∨ name = "annee" ∨ name = "puissance_fiscale"
        then JSVal.num (Number value) else JSVal.str value) ∧
    (∀ k, k ≠ name → (onChange Number s name value).vehicle.get k = s.vehicle.get k) ∧
    onChange Number s name value =
      { s with vehicle := (onChange Number s name value).vehicle } :=
  ⟨get_updateField_self Number s.vehicle name value,
    fun k hk => get_updateField_ne Number s.vehicle name value k hk, rfl⟩

/-! ## Outcomes of the prediction request -/

/-- A submit that issues a request leaves both `result` and `error` null and
`loading` set. -/
theorem onSubmit_of_sent (currentYear : Int) (s : State)
    (h : (onSubmit currentYear s).2 ≠ []) :
    (onSubmit currentYear s).1 = { s with error := none, result := none, loading := true } := by
  unfold onSubmit at h ⊢
  split_ifs at h ⊢ <;> simp_all

/-- The example query passes validation in 2025. -/
theorem exampleState_sent : (onSubmit 2025 exampleState).2 ≠ [] := by
  simp [onSubmit, exampleState, JSNum.lt_ofInt]

/-- C4, as stated, fails: for the example query answered by
`{success: false, error: ""}` the message shown is the fallback, not the
server-supplied `error`, which is present. -/
theorem empty_server_error_replaced :
    (onSubmit 2025 exampleState).2 = [exampleState.vehicle] ∧
    (onPredictResolved (onSubmit 2025 exampleState).1
        (.object { success := some false, error := some "" }) "").1.error =
      some "Erreur lors de la prédiction." ∧
    (onPredictResolved (onSubmit 2025 exampleState).1
        (.object { success := some false, error := some "" }) "").1.error ≠ some "" := by
  refine ⟨?_, ?_, ?_⟩ <;>
    simp [onSubmit, exampleState, JSNum.lt_ofInt, onPredictResolved, finallyBlock, orLit,
      msgPredictFailed]

/-- C4, amended: after a submit that issued a request, a response carrying the
payload object `p` ends, when `p.success` is true, with `result` the whole of
`p` and `error` null, and otherwise (`success` false or missing) with `result`
null and `error` the server-supplied `p.error` when that is present and not
the empty string, the fallback message when it is absent or empty; `loading`
is reset in both cases. -/
theorem predictResolved_outcome (currentYear : Int) (s : State) (p : PredictData)
    (typeErrorMessage : String) (h : (onSubmit currentYear s).2 ≠ []) :
    (p.success = some true →
      (onPredictResolved (onSubmit currentYear s).1 (.object p) typeErrorMessage).1.result
          = some p ∧
      (onPredictResolved (onSubmit currentYear s).1 (.object p) typeErrorMessage).1.error
          = none ∧
      (onPredictResolved (onSubmit currentYear s).1 (.object p) typeErrorMessage).1.loading
          = false) ∧
    (p.success ≠ some true →
      (onPredictResolved (onSubmit currentYear s).1 (.object p) typeErrorMessage).1.result
          = none ∧
      (onPredictResolved (onSubmit currentYear s).1 (.object p) typeErrorMessage).1.loading
          = false ∧
      (∀ e, p.error = some e → e ≠ "" →
        (onPredictResolved (onSubmit currentYear s).1 (.object p) typeErrorMessage).1.error
          = some e) ∧
      (p.error = none ∨ p.error = some "" →
        (onPredictResolved (onSubmit currentYear s).1 (.object p) typeErrorMessage).1.error
          = some "Erreur lors de la prédiction.")) := by
  rw [onSubmit_of_sent currentYear s h]
  constructor
  · intro hs
    simp [onPredictResolved, finallyBlock, hs]
  · intro hs
    refine ⟨?_, ?_, ?_, ?_⟩
    · simp [onPredictResolved, finallyBlock, hs]
    · simp [onPredictResolved, finallyBlock, hs]
    · intro e he hne
      simp [onPredictResolved, finallyBlock, hs, he, orLit, hne]
    · intro he
      rcases he with he | he <;>
        simp [onPredictResolved, finallyBlock, hs, he, orLit, msgPredictFailed]

/-- The specification's example: the successful payload is stored whole; the
payload `{success: false, error: "modèle inconnu"}` shows that message and no
result. -/
theorem predictResolved_outcome_example :
    (onSubmit 2025 exampleState).2 ≠ [] ∧
    (onPredictResolved (onSubmit 2025 exampleState).1 (.object examplePayload) "").1.result
      = some examplePayload ∧
    (onPredictResolved (onSubmit 2025 exampleState).1 (.object examplePayload) "").1.error
      = none ∧
    (onPredictResolved (onSubmit 2025 exampleState).1
        (.object { success := some false, error := some "modèle inconnu" }) "").1.result
      = none ∧
    (onPredictResolved (onSubmit 2025 exampleState).1
        (.object { success := some false, error := some "modèle inconnu" }) "").1.error
      = some "modèle inconnu" :=
  ⟨exampleState_sent,
    ((predictResolved_outcome 2025 exampleState examplePayload "" exampleState_sent).1 rfl).1,
    ((predictResolved_outcome 2025 exampleState examplePayload "" exampleState_sent).1 rfl).2.1,
    ((predictResolved_outcome 2025 exampleState
      { success := some false, error := some "modèle inconnu" } "" exampleState_sent).2
        (by decide)).1,
    ((predictResolved_outcome 2025 exampleState
      { success := some false, error := some "modèle inconnu" } "" exampleState_sent).2
        (by decide)).2.2.1 "modèle inconnu" rfl (by decide)⟩

/-- C5, as stated, fails: a transport failure with no response body and the
message `Network Error` shows that message, not the generic fallback. -/
theorem no_body_shows_transport_message :
    (onSubmit 2025 exampleState).2 = [exampleState.vehicle] ∧
    networkError.responseError = none ∧
    (onPredictRejected (onSubmit 2025 exampleState).1 networkError).1.error
      = some "Network Error" ∧
    (onPredictRejected (onSubmit 2025 exampleState).1 networkError).1.error
      ≠ some "Erreur réseau" := by
  refine ⟨?_, ?_, ?_, ?_⟩ <;>
    simp [onSubmit, exampleState, JSNum.lt_ofInt, onPredictRejected, finallyBlock, catchBlock,
      networkError, JsError.responseError, jsOr, orLit]

/-- C5, amended: after a submit that issued a request, a transport failure
ends with `result` null, `loading` reset and `error` chosen by precedence among
the non-empty candidates: the `error` of the response body when present and
not empty; else the message of the error when present and not empty; else the
generic `Erreur réseau`. So a failure with no response body shows the error's
own message, and the generic fallback only when that message is absent or
empty. -/
theorem predictRejected_outcome (currentYear : Int) (s : State) (err : JsError)
    (h : (onSubmit currentYear s).2 ≠ []) :
    (onPredictRejected (onSubmit currentYear s).1 err).1.result = none ∧
    (onPredictRejected (onSubmit currentYear s).1 err).1.loading = false ∧
    (∀ e, err.responseError = some e → e ≠ "" →
      (onPredictRejected (onSubmit currentYear s).1 err).1.error = some e) ∧
    (err.responseError = none ∨ err.responseError = some "" →
      ∀ m, err.message = some m → m ≠ "" →
        (onPredictRejected (onSubmit currentYear s).1 err).1.error = some m) ∧
    (err.responseError = none ∨ err.responseError = some "" →
      err.message = none ∨ err.message = some "" →
        (onPredictRejected (onSubmit currentYear s).1 err).1.error = some "Erreur réseau") ∧
    (err.response = none ∨ err.response = some { data := none } →
      err.responseError = none) := by
  rw [onSubmit_of_sent currentYear s h]
  refine ⟨rfl, rfl, ?_, ?_, ?_, ?_⟩
  · intro e he hne
    simp [onPredictRejected, finallyBlock, catchBlock, he, jsOr, orLit, hne]
  · intro he m hm hne
    rcases he with he | he <;>
      simp [onPredictRejected, finallyBlock, catchBlock, he, hm, jsOr, orLit, hne]
  · intro he hm
    rcases he with he | he <;> rcases hm with hm | hm <;>
      simp [onPredictRejected, finallyBlock, catchBlock, he, hm, jsOr, orLit, msgNetwork]
  · intro hr
    rcases hr with hr | hr <;> simp [JsError.responseError, hr]

/-- A failure with no response body and no message shows the generic fallback;
a body with an `error` is shown in preference to the message. -/
theorem predictRejected_outcome_example :
    (onSubmit 2025 exampleState).2 ≠ [] ∧
    (onPredictRejected (onSubmit 2025 exampleState).1
      { response := none, message := none }).1.error = some "Erreur réseau" ∧
    (onPredictRejected (onSubmit 2025 exampleState).1
      { response := some { data := some { error := some "modèle inconnu" } },
        message := some "Request failed with status code 400" }).1.error
      = some "modèle inconnu" :=
  ⟨exampleState_sent,
    (predictRejected_outcome 2025 exampleState { response := none, message := none }
      exampleState_sent).2.2.2.2.1 (Or.inl rfl) (Or.inl rfl),
    (predictRejected_outcome 2025 exampleState
      { response := some { data := some { error := some "modèle inconnu" } },
        message := some "Request failed with status code 400" }
      exampleState_sent).2.2.1 "modèle inconnu" rfl (by decide)⟩

/-! ## The option catalog -/

/-- C6: a successful catalog response arriving in the initial state makes the
brand list the server's `marques` (empty when absent), replaces the energy and
transmission lists by the server's `energies` and `boites` when provided and
keeps the built-in lists otherwise, and sets the brand to the first element of
`marques` when there is one, leaving it empty when there is none. -/
theorem optionsResolved_from_init (loadYear : Int) (d : BrandsData)
    (h : d.success = some true) :
    (onOptionsResolved true (State.init loadYear) (.object d)).brands = d.marques.getD [] ∧
    (∀ l, d.energies = some l →
      (onOptionsResolved true (State.init loadYear) (.object d)).energies = l) ∧
    (d.energies = none →
      (onOptionsResolved true (State.init loadYear) (.object d)).energies
        = ["Diesel", "Essence", "Hybride", "Electrique", "GPL"]) ∧
    (∀ l, d.boites = some l →
      (onOptionsResolved true (State.init loadYear) (.object d)).boites = l) ∧
    (d.boites = none →
      (onOptionsResolved true (State.init loadYear) (.object d)).boites
        = ["Manuelle", "Automatique"]) ∧
    (∀ b rest, d.marques = some (b :: rest) →
      (onOptionsResolved true (State.init loadYear) (.object d)).vehicle.marque = b) ∧
    (d.marques = none ∨ d.marques = some [] →
      (onOptionsResolved true (State.init loadYear) (.object d)).vehicle.marque = "") := by
  refine ⟨?_, ?_, ?_, ?_, ?_, ?_, ?_⟩
  · simp [onOptionsResolved, h]
  · intro l hl
    simp [onOptionsResolved, h, hl]
  · intro hl
    simp [onOptionsResolved, h, hl, State.init, defaultEnergies]
  · intro l hl
    simp [onOptionsResolved, h, hl]
  · intro hl
    simp [onOptionsResolved, h, hl, State.init, defaultBoites]
  · intro b rest hm
    by_cases hb : b = ""
    · simp [onOptionsResolved, h, hm, orLit, hb, State.init, defaultVehicle]
    · simp [onOptionsResolved, h, hm, orLit, hb]
  · intro hm
    rcases hm with hm | hm <;>
      simp [onOptionsResolved, h, hm, orLit, State.init, defaultVehicle]

/-- The specification's example: with the catalog BMW, Renault / Diesel /
Manuelle the brand becomes BMW and the two lists are replaced. -/
theorem optionsResolved_from_init_example :
    exampleCatalog.success = some true ∧
    (onOptionsResolved true (State.init 2025) (.object exampleCatalog)).vehicle.marque
      = "BMW" ∧
    (onOptionsResolved true (State.init 2025) (.object exampleCatalog)).brands
      = ["BMW", "Renault"] ∧
    (onOptionsResolved true (State.init 2025) (.object exampleCatalog)).energies
      = ["Diesel"] ∧
    (onOptionsResolved true (State.init 2025) (.object exampleCatalog)).boites
      = ["Manuelle"] :=
  ⟨rfl,
    (optionsResolved_from_init 2025 exampleCatalog rfl).2.2.2.2.2.1 "BMW" ["Renault"] rfl,
    (optionsResolved_from_init 2025 exampleCatalog rfl).1,
    (optionsResolved_from_init 2025 exampleCatalog rfl).2.1 ["Diesel"] rfl,
    (optionsResolved_from_init 2025 exampleCatalog rfl).2.2.2.1 ["Manuelle"] rfl⟩

/-- C8: a failed catalog fetch, whether the request is rejected or the response
is not an object with a true `success`, sets `error` and changes nothing else.
From the initial state the brand list is still empty, the two other lists and
the vehicle record are the built-in ones; and whenever the brand was empty it
still is, and a submit that follows is rejected with the brand message and
issues no request. -/
theorem options_failure_frame (loadYear currentYear : Int) (s : State)
    (data : Body BrandsData) :
    onOptionsRejected s
      = { s with error := some "Erreur réseau lors de récupération des marques." } ∧
    ((∀ d, data = .object d → d.success ≠ some true) →
      onOptionsResolved true s data
        = { s with error := some "Impossible de récupérer la liste des marques." }) ∧
    (onOptionsRejected (State.init loadYear)).brands = [] ∧
    (onOptionsRejected (State.init loadYear)).energies
      = ["Diesel", "Essence", "Hybride", "Electrique", "GPL"] ∧
    (onOptionsRejected (State.init loadYear)).boites = ["Manuelle", "Automatique"] ∧
    (onOptionsRejected (State.init loadYear)).vehicle = defaultVehicle loadYear ∧
    (defaultVehicle loadYear).marque = "" ∧
    (s.vehicle.marque = "" →
      (onOptionsRejected s).vehicle.marque = "" ∧
      (onSubmit currentYear (onOptionsRejected s)).1.error
        = some "Veuillez sélectionner une marque." ∧
      (onSubmit currentYear (onOptionsRejected s)).2 = []) ∧
    (s.vehicle.marque = "" → (∀ d, data = .object d → d.success ≠ some true) →
      (onOptionsResolved true s data).vehicle.marque = "" ∧
      (onSubmit currentYear (onOptionsResolved true s data)).1.error
        = some "Veuillez sélectionner une marque." ∧
      (onSubmit currentYear (onOptionsResolved true s data)).2 = []) := by
  have key : (∀ d, data = .object d → d.success ≠ some true) →
      onOptionsResolved true s data = { s with error := some msgOptionsFailed } := by
    intro hf
    cases data with
    | nullish => simp [onOptionsResolved]
    | scalar => simp [onOptionsResolved]
    | object d => simp [onOptionsResolved, hf d rfl]
  refine ⟨rfl, key, rfl, rfl, rfl, rfl, rfl, ?_, ?_⟩
  · intro hm
    simp [onOptionsRejected, onSubmit, hm, msgMissingBrand]
  · intro hm hf
    rw [key hf]
    simp [onSubmit, hm, msgMissingBrand]

/-! ## The states the form reaches -/

theorem onOptionsResolved_frame (m : Bool) (s : State) (data : Body BrandsData) :
    (onOptionsResolved m s data).result = s.result ∧
    (onOptionsResolved m s data).loading = s.loading ∧
    (onOptionsResolved m s data).vehicle.puissance_fiscale = s.vehicle.puissance_fiscale := by
  unfold onOptionsResolved
  split_ifs
  · exact ⟨rfl, rfl, rfl⟩
  · cases data with
    | nullish => exact ⟨rfl, rfl, rfl⟩
    | scalar => exact ⟨rfl, rfl, rfl⟩
    | object d =>
      simp only []
      split_ifs <;> exact ⟨rfl, rfl, rfl⟩

theorem onSubmit_frame (currentYear : Int) (s : State) :
    (onSubmit currentYear s).1.result = none ∧
    (onSubmit currentYear s).1.vehicle = s.vehicle ∧
    (onSubmit currentYear s).1.brands = s.brands ∧
    (((onSubmit currentYear s).2 = [] ∧ (onSubmit currentYear s).1.loading = s.loading) ∨
      ((onSubmit currentYear s).2 = [s.vehicle] ∧ (onSubmit currentYear s).1.error = none ∧
        (onSubmit currentYear s).1.loading = true)) := by
  unfold onSubmit
  simp only []
  split_ifs <;> simp

theorem onPredictResolved_frame (s : State) (data : Body PredictData) (t : String) :
    (onPredictResolved s data t).2 = [] ∧
    (onPredictResolved s data t).1.loading = false ∧
    (onPredictResolved s data t).1.vehicle = s.vehicle ∧
    (onPredictResolved s data t).1.brands = s.brands ∧
    (s.result = none → s.error = none →
      (onPredictResolved s data t).1.result = none ∨
        (onPredictResolved s data t).1.error = none) := by
  unfold onPredictResolved
  cases data with
  | nullish =>
    simp only [finallyBlock, catchBlock, true_and]
    exact fun hr _ => Or.inl hr
  | scalar =>
    simp only [finallyBlock, true_and]
    exact fun hr _ => Or.inl hr
  | object p =>
    simp only []
    split_ifs
    · simp only [finallyBlock, true_and]
      exact fun _ he => Or.inr he
    · simp only [finallyBlock, true_and]
      exact fun hr _ => Or.inl hr

theorem clickSubmit_cases (currentYear : Int) (s : State) :
    clickSubmit currentYear s = (s, []) ∨
      (s.loading = false ∧ formValid currentYear s.vehicle = true ∧
        clickSubmit currentYear s = onSubmit currentYear s) := by
  unfold clickSubmit
  split_ifs with h
  · exact Or.inr ⟨h.1, h.2, rfl⟩
  · exact Or.inl rfl

theorem formValid_marque (maxYear : Int) (v : Vehicle) (h : formValid maxYear v = true) :
    v.marque ≠ "" := by
  simp only [formValid, Bool.and_eq_true, decide_eq_true_eq] at h
  exact h.1.1.1.1

theorem formValid_power (maxYear : Int) (v : Vehicle) (h : formValid maxYear v = true) :
    underflow 1 v.puissance_fiscale = false := by
  simp only [formValid, Bool.and_eq_true, Bool.not_eq_true'] at h
  exact h.2

theorem updateField_marque (Number : String → JSNum) (v : Vehicle) (name value : String) :
    (updateField Number v name value).marque = if name = "marque" then value else v.marque := by
  unfold updateField
  split_ifs <;> simp_all

theorem updateField_power (Number : String → JSNum) (v : Vehicle) (name value : String) :
    (updateField Number v name value).puissance_fiscale =
      if name = "puissance_fiscale" then Number value else v.puissance_fiscale := by
  unfold updateField
  split_ifs <;> simp_all

theorem FormInv.init (loadYear : Int) : FormInv (Sys.init loadYear) := by
  constructor <;> simp [Sys.init, State.init, defaultVehicle, JSNum.ofInt, JSNum.isFinite]

theorem FormInv.step (Number : String → JSNum) (σ τ : Sys) (e : Event)
    (hσ : FormInv σ) (hstep : step Number σ e = some τ) : FormInv τ := by
  obtain ⟨h1, h2, h3, h4, h5, h6⟩ := hσ
  cases e with
  | optionsResolved data =>
    simp only [PredictionForm.step] at hstep
    split_ifs at hstep with hp
    cases hstep
    obtain ⟨hi, hr, _, _⟩ := h5 hp
    obtain ⟨fr, fl, fp⟩ := onOptionsResolved_frame true σ.ui data
    constructor
    · exact h1
    · simpa [fl] using h2
    · intro h; simp [hi] at h
    · left; simp [fr, hr]
    · intro h; simp at h
    · simpa [fp] using h6
  | optionsRejected =>
    simp only [PredictionForm.step] at hstep
    split_ifs at hstep with hp
    cases hstep
    obtain ⟨hi, hr, _, _⟩ := h5 hp
    constructor
    · exact h1
    · simpa [onOptionsRejected] using h2
    · intro h; simp [hi] at h
    · left; simp [onOptionsRejected, hr]
    · intro h; simp at h
    · simpa [onOptionsRejected] using h6
  | change name value =>
    simp only [PredictionForm.step] at hstep
    split_ifs at hstep with hc
    cases hstep
    constructor
    · exact h1
    · exact h2
    · exact h3
    · exact h4
    · intro hp
      obtain ⟨hi, hr, hm, hb⟩ := h5 hp
      refine ⟨hi, hr, ?_, hb⟩
      show (updateField Number σ.ui.vehicle name value).marque = ""
      rw [updateField_marque]
      split_ifs with hn
      · simpa [canChange, hn, hb] using hc
      · exact hm
    · show (updateField Number σ.ui.vehicle name value).puissance_fiscale.isFinite = true
      rw [updateField_power]
      split_ifs with hn
      · subst hn
        simpa [canChange] using hc
      · exact h6
  | click currentYear =>
    simp only [PredictionForm.step] at hstep
    cases hstep
    rcases clickSubmit_cases currentYear σ.ui with hno | ⟨hl, hv, hon⟩
    · rw [hno]
      exact ⟨by simpa using h1, by simpa using h2, by simpa using h3, h4,
        by simpa using h5, h6⟩
    · rw [hon]
      have hi : σ.inflight = 0 := by
        have : ¬ σ.inflight = 1 := fun h => by simp [h2.mpr h] at hl
        omega
      have hnp : σ.optionsPending = false := by
        cases hp : σ.optionsPending with
        | false => rfl
        | true => exact absurd (h5 hp).2.2.1 (formValid_marque _ _ hv)
      obtain ⟨fr, fv, fb, fc⟩ := onSubmit_frame currentYear σ.ui
      rcases fc with ⟨hq, hload⟩ | ⟨hq, he, hload⟩
      · constructor
        · simp [hi, hq]
        · simp [hi, hq, hload, hl]
        · intro h; simp [hi, hq] at h
        · left; exact fr
        · intro h; simp [hnp] at h
        · simpa [fv] using h6
      · constructor
        · simp [hi, hq]
        · simp [hi, hq, hload]
        · intro _; exact ⟨fr, he⟩
        · left; exact fr
        · intro h; simp [hnp] at h
        · simpa [fv] using h6
  | predictResolved data t =>
    simp only [PredictionForm.step] at hstep
    split_ifs at hstep with hp
    cases hstep
    have hi : σ.inflight = 1 := by omega
    obtain ⟨hr, he⟩ := h3 hi
    obtain ⟨fq, fl, fv, _, fx⟩ := onPredictResolved_frame σ.ui data t
    constructor
    · simp [hi, fq]
    · simp [hi, fq, fl]
    · intro h; simp [hi, fq] at h
    · exact fx hr he
    · intro h
      have := (h5 h).1
      omega
    · simpa [fv] using h6
  | predictRejected err =>
    simp only [PredictionForm.step] at hstep
    split_ifs at hstep with hp
    cases hstep
    have hi : σ.inflight = 1 := by omega
    obtain ⟨hr, he⟩ := h3 hi
    constructor
    · simp [hi, onPredictRejected]
    · simp [hi, onPredictRejected, finallyBlock]
    · intro h; simp [hi, onPredictRejected] at h
    · left; simp [onPredictRejected, finallyBlock, catchBlock, hr]
    · intro h
      have := (h5 h).1
      omega
    · simpa [onPredictRejected, finallyBlock, catchBlock] using h6

theorem FormInv.run (Number : String → JSNum) (es : List Event) :
    ∀ σ τ : Sys, FormInv σ → PredictionForm.run Number σ es = some τ → FormInv τ := by
  induction es with
  | nil =>
    intro σ τ hσ hrun
    simp only [PredictionForm.run, Option.some.injEq] at hrun
    exact hrun ▸ hσ
  | cons e es ih =>
    intro σ τ hσ hrun
    simp only [PredictionForm.run] at hrun
    cases hst : PredictionForm.step Number σ e with
    | none => simp [hst] at hrun
    | some ρ =>
      rw [hst] at hrun
      simp only [Option.some_bind] at hrun
      exact ih ρ τ (FormInv.step Number σ ρ e hσ hst) hrun

/-- C3: in every state the form reaches from its initial state, by any
sequence of catalog outcomes, field edits, clicks on submit, prediction
responses and transport errors, at most one of `result` and `error` is
non-null. -/
theorem result_error_exclusive (Number : String → JSNum) (loadYear : Int)
    (es : List Event) (σ : Sys)
    (hrun : run Number (Sys.init loadYear) es = some σ) :
    σ.ui.result = none ∨ σ.ui.error = none :=
  (FormInv.run Number es (Sys.init loadYear) σ (FormInv.init loadYear) hrun).exclusive

/-- The session `formSession` runs to its end and leaves the failure message
and no result; of two clicks in a row the second does nothing, and the answer
leaves the result and no message. -/
theorem result_error_exclusive_example :
    run decimalNumber (Sys.init 2025) formSession = some (endOf formSession) ∧
    ((endOf formSession).ui.result = none ∨ (endOf formSession).ui.error = none) ∧
    ((endOf formSession).ui.result, (endOf formSession).ui.error)
      = (none, some "Network Error") ∧
    run decimalNumber (Sys.init 2025) doubleClick = some (endOf doubleClick) ∧
    ((endOf doubleClick).ui.result, (endOf doubleClick).ui.error, (endOf doubleClick).inflight)
      = (some examplePayload, none, 0) :=
  ⟨by decide,
    result_error_exclusive decimalNumber 2025 formSession (endOf formSession) (by decide),
    by decide, by decide, by decide⟩

/-- C7: whenever the successful catalog response arrives in the form, the
brand field is still empty, so the first brand is preselected into an empty
field only: a brand that were not empty is kept, the first element of `marques`
is taken when there is one, and every other property of the vehicle record is
kept, whatever the state and the response. -/
theorem optionsResolved_preselects_into_empty (Number : String → JSNum) (loadYear : Int)
    (es : List Event) (σ : Sys) (data : Body BrandsData)
    (hrun : run Number (Sys.init loadYear) es = some σ)
    (hp : σ.optionsPending = true) :
    σ.ui.vehicle.marque = "" ∧
    (σ.ui.vehicle.marque ≠ "" →
      (onOptionsResolved true σ.ui data).vehicle.marque = σ.ui.vehicle.marque) ∧
    (∀ d b rest, data = .object d → d.success = some true → d.marques = some (b :: rest) →
      (onOptionsResolved true σ.ui data).vehicle.marque = b) ∧
    (∀ (t : State) (r : Body BrandsData),
      (onOptionsResolved true t r).vehicle =
        { t.vehicle with marque := (onOptionsResolved true t r).vehicle.marque }) := by
  have hm : σ.ui.vehicle.marque = "" :=
    ((FormInv.run Number es (Sys.init loadYear) σ (FormInv.init loadYear) hrun).awaiting
      hp).2.2.1
  refine ⟨hm, fun h => absurd hm h, ?_, ?_⟩
  · intro d b rest hd hs hl
    subst hd
    by_cases hb : b = ""
    · simp [onOptionsResolved, hs, hl, orLit, hb, hm]
    · simp [onOptionsResolved, hs, hl, orLit, hb]
  · intro t r
    unfold onOptionsResolved
    cases r <;> simp
    split_ifs <;> rfl

/-- Two fields are edited while the catalog is awaited: the brand is still
empty, and the catalog BMW, Renault then sets the brand to BMW and keeps the
edited model and mileage. -/
theorem optionsResolved_preselects_into_empty_example :
    run decimalNumber (Sys.init 2025) editsBeforeCatalog = some (endOf editsBeforeCatalog) ∧
    (endOf editsBeforeCatalog).optionsPending = true ∧
    (endOf editsBeforeCatalog).ui.vehicle.marque = "" ∧
    (onOptionsResolved true (endOf editsBeforeCatalog).ui (.object exampleCatalog)).vehicle
      = { marque := "BMW"
          modele := "Série 3"
          annee := JSNum.fin 2025
          kilometrage := JSNum.fin 42000
          energie := "Diesel"
          boite_vitesses := "Manuelle"
          puissance_fiscale := JSNum.fin 7 } ∧
    (onOptionsResolved true (endOf editsBeforeCatalog).ui
      (.object exampleCatalog)).vehicle.marque = "BMW" :=
  ⟨by decide, by decide,
    (optionsResolved_preselects_into_empty decimalNumber 2025 editsBeforeCatalog
      (endOf editsBeforeCatalog) (.object exampleCatalog) (by decide) (by decide)).1,
    by decide,
    (optionsResolved_preselects_into_empty decimalNumber 2025 editsBeforeCatalog
      (endOf editsBeforeCatalog) (.object exampleCatalog) (by decide) (by decide)).2.2.1
        exampleCatalog "BMW" ["Renault"] rfl rfl rfl⟩

/-- C9: positivity of fiscal power is enforced when the form is submitted. In
every state the form reaches, every request a click on submit issues (the
request of `onSubmit`, which is called only on a valid form) carries a
`puissance_fiscale >= 1`, and with `puissance_fiscale < 1` the click is refused:
`onSubmit` is not called, nothing changes and no request is issued. -/
theorem fiscal_power_enforced (Number : String → JSNum) (loadYear : Int)
    (es : List Event) (σ : Sys) (currentYear : Int)
    (hrun : run Number (Sys.init loadYear) es = some σ) :
    (∀ v ∈ (clickSubmit currentYear σ.ui).2,
      (JSNum.ofInt 1).le v.puissance_fiscale = true) ∧
    ((clickSubmit currentYear σ.ui).2 = [] ∨
      ((clickSubmit currentYear σ.ui).2 = [σ.ui.vehicle] ∧
        clickSubmit currentYear σ.ui = onSubmit currentYear σ.ui)) ∧
    (σ.ui.vehicle.puissance_fiscale.lt (JSNum.ofInt 1) = true →
      clickSubmit currentYear σ.ui = (σ.ui, [])) := by
  have hfin : σ.ui.vehicle.puissance_fiscale.isFinite = true :=
    (FormInv.run Number es (Sys.init loadYear) σ (FormInv.init loadYear) hrun).finitePower
  have hcases : (clickSubmit currentYear σ.ui).2 = [] ∨
      ((clickSubmit currentYear σ.ui).2 = [σ.ui.vehicle] ∧
        clickSubmit currentYear σ.ui = onSubmit currentYear σ.ui ∧
        formValid currentYear σ.ui.vehicle = true) := by
    rcases clickSubmit_cases currentYear σ.ui with hno | ⟨_, hv, hon⟩
    · left; rw [hno]
    · rcases (onSubmit_frame currentYear σ.ui).2.2.2 with ⟨hq, _⟩ | ⟨hq, _, _⟩
      · left; rw [hon, hq]
      · right; exact ⟨by rw [hon, hq], hon, hv⟩
  refine ⟨?_, ?_, ?_⟩
  · intro v hv
    rcases hcases with hq | ⟨hq, _, hval⟩
    · rw [hq] at hv; simp at hv
    · rw [hq] at hv
      simp only [List.mem_singleton] at hv
      subst hv
      have hu := formValid_power _ _ hval
      cases hpf : σ.ui.vehicle.puissance_fiscale with
      | nan => simp [hpf, JSNum.isFinite] at hfin
      | negInf => simp [hpf, JSNum.isFinite] at hfin
      | posInf => simp [hpf, JSNum.isFinite] at hfin
      | fin q =>
        rw [hpf] at hu
        simp only [underflow, decide_eq_false_iff_not, not_lt] at hu
        simpa [JSNum.ofInt, JSNum.le] using hu
  · rcases hcases with hq | ⟨hq, hon, _⟩
    · exact Or.inl hq
    · exact Or.inr ⟨hq, hon⟩
  · intro hlt
    rcases clickSubmit_cases currentYear σ.ui with hno | ⟨_, hv, _⟩
    · exact hno
    · exfalso
      have hu := formValid_power _ _ hv
      cases hpf : σ.ui.vehicle.puissance_fiscale with
      | nan => simp [hpf, JSNum.isFinite] at hfin
      | negInf => simp [hpf, JSNum.isFinite] at hfin
      | posInf => simp [hpf, JSNum.isFinite] at hfin
      | fin q =>
        rw [hpf] at hu hlt
        simp only [underflow, decide_eq_false_iff_not, not_lt] at hu
        simp only [JSNum.ofInt, JSNum.lt, decide_eq_true_eq] at hlt
        exact absurd hlt (not_lt.mpr hu)

/-- With the fiscal power set to 0 the click is refused and issues nothing;
with 3 it issues the one request, which carries 3. -/
theorem fiscal_power_enforced_example :
    run decimalNumber (Sys.init 2025) zeroPowerEdit = some (endOf zeroPowerEdit) ∧
    (endOf zeroPowerEdit).ui.vehicle.puissance_fiscale = JSNum.fin 0 ∧
    clickSubmit 2025 (endOf zeroPowerEdit).ui = ((endOf zeroPowerEdit).ui, []) ∧
    run decimalNumber (Sys.init 2025) threePowerEdit = some (endOf threePowerEdit) ∧
    (clickSubmit 2025 (endOf threePowerEdit).ui).2.map (fun v => v.puissance_fiscale)
      = [JSNum.fin 3] ∧
    (∀ v ∈ (clickSubmit 2025 (endOf threePowerEdit).ui).2,
      (JSNum.ofInt 1).le v.puissance_fiscale = true) :=
  ⟨by decide, by decide,
    (fiscal_power_enforced decimalNumber 2025 zeroPowerEdit (endOf zeroPowerEdit) 2025
      (by decide)).2.2 (by decide),
    by decide, by decide,
    (fiscal_power_enforced decimalNumber 2025 threePowerEdit (endOf threePowerEdit) 2025
      (by decide)).1⟩

end PredictionForm
